import Mathlib

/-!
Verification of the pyslog configuration layer
(`src/packages/pyslog/logs.py`): the `LoggingConfig` environment
resolver and the `LoggerFactory` lifecycle state machine, shallowly
embedded in Lean.  File-system and dotenv effects are modelled by
explicit oracles; the process-global stdlib-logging registry and the
factory fields (`_configured`, `_config`, `_default_logger`) are
explicit state.
-/

namespace Pyslog

/-- `LogLevel` enum (`logs.py` lines 17-24). -/
inductive LogLevel where
  | CRITICAL
  | ERROR
  | WARNING
  | INFO
  | DEBUG
  deriving DecidableEq, Repr

/-- `LogFormat` enum (`logs.py` lines 27-31). -/
inductive LogFormat where
  | CONSOLE
  | JSON
  deriving DecidableEq, Repr

/-- `LogOutput` enum (`logs.py` lines 34-38). -/
inductive LogOutput where
  | STDOUT
  | FILE
  deriving DecidableEq, Repr

/-- The `LoggingConfig` dataclass (`logs.py` lines 41-50).  It is a plain
`@dataclass`: the constructor itself performs no validation; only
`from_env` does. -/
structure LoggingConfig where
  level : LogLevel := .DEBUG
  format : LogFormat := .CONSOLE
  output : LogOutput := .STDOUT
  file_path : String := "app.log"
  include_location : Bool := false
  logger_name : String := "logs"
  deriving DecidableEq, Repr

/-- The errors raised by the embedded code.  Constructors carry the data
interpolated into the Python exception message.  `from_env` and the
path-shape checks raise `ValueError` (the spec's `ConfigError`);
`fileHandlerFailed` is the `RuntimeError` wrapping an `OSError` /
`PermissionError` (the spec's `BackendError`), and
`notProperlyConfigured` is the `RuntimeError` in `get_default_logger`. -/
inductive LogError where
  | invalidLevel (given : String)
  | invalidFormat (given : String)
  | invalidOutput (given : String)
  | emptyFilePath
  | filePathTooLong (len : Nat)
  | emptyLoggerName
  | filePathIsDirectory (path : String)
  | filePathNotRegularFile (path : String)
  | fileHandlerFailed (path : String) (osError : String)
  | notProperlyConfigured
  deriving DecidableEq, Repr

/-- The Python exception class of each error (`ValueError` vs
`RuntimeError`), which is what the spec's taxonomy maps onto:
`ConfigError` = `ValueError`, `BackendError` = the `RuntimeError`
raised while creating the sink. -/
inductive PyExc where
  | valueError
  | runtimeError
  deriving DecidableEq, Repr

def LogError.pythonException : LogError → PyExc
  | .fileHandlerFailed _ _ => .runtimeError
  | .notProperlyConfigured => .runtimeError
  | _ => .valueError

/-- Spec taxonomy: is this error a `BackendError` (I/O failure creating
the sink, wrapping the underlying OS error)? -/
def LogError.isBackendError : LogError → Bool
  | .fileHandlerFailed _ _ => true
  | _ => false

/-- An environment mapping (Python `dict[str, str]`), as an association
list; `lookup` returns the value of the first occurrence of a key, which
on duplicate-free lists coincides with Python dict lookup. -/
abbrev EnvMap := List (String × String)

/-- Python `env.get(key, default)`. -/
def envGet (env : EnvMap) (key dflt : String) : String :=
  match env.lookup key with
  | some v => v
  | none => dflt

/-- Python `str.upper()`, character by character (agrees with Python on
ASCII input; all recognized enum values are ASCII).  Implemented by a
structural map so that it computes in the kernel. -/
def pyUpper (s : String) : String := String.mk (s.data.map Char.toUpper)

/-- Python `str.lower()`, character by character (ASCII-faithful). -/
def pyLower (s : String) : String := String.mk (s.data.map Char.toLower)

/-- `LogLevel(level_str)`: look the string up among the enum values. -/
def parseLevel (s : String) : Option LogLevel :=
  if s = "CRITICAL" then some .CRITICAL
  else if s = "ERROR" then some .ERROR
  else if s = "WARNING" then some .WARNING
  else if s = "INFO" then some .INFO
  else if s = "DEBUG" then some .DEBUG
  else none

/-- `LogFormat(format_str)`. -/
def parseFormat (s : String) : Option LogFormat :=
  if s = "console" then some .CONSOLE
  else if s = "json" then some .JSON
  else none

/-- `LogOutput(output_str)`. -/
def parseOutput (s : String) : Option LogOutput :=
  if s = "stdout" then some .STDOUT
  else if s = "file" then some .FILE
  else none

/-- `LoggingConfig.from_env` (`logs.py` lines 52-110) on an explicit
environment dictionary.  Python `.upper()` / `.lower()` are embedded as
`pyUpper` / `pyLower` (they agree with Python on ASCII, and all
recognized values are ASCII).  The `isinstance(..., str)` checks are
vacuous under the embedding's typing.  Returns the first raised
`ValueError`, in the source's textual order: level, format, output,
file path, (location - no error path), logger name. -/
def LoggingConfig.from_env (env : EnvMap) : Except LogError LoggingConfig :=
  let level_str := pyUpper (envGet env "LOGGING_LEVEL" "DEBUG")
  match parseLevel level_str with
  | none => .error (.invalidLevel level_str)
  | some level =>
    let format_str := pyLower (envGet env "LOGGING_FORMAT" "console")
    match parseFormat format_str with
    | none => .error (.invalidFormat format_str)
    | some log_format =>
      let output_str := pyLower (envGet env "LOGGING_OUTPUT" "stdout")
      match parseOutput output_str with
      | none => .error (.invalidOutput output_str)
      | some output =>
        let file_path := envGet env "LOGGING_FILE_PATH" "app.log"
        if file_path = "" then .error .emptyFilePath
        else if file_path.length > 4096 then
          .error (.filePathTooLong file_path.length)
        else
          let include_location_str :=
            pyLower (envGet env "LOGGING_INCLUDE_LOCATION" "false")
          let include_location :=
            (["true", "1", "yes"] : List String).contains include_location_str
          let logger_name := envGet env "LOGGING_LOGGER_NAME" "logs"
          if logger_name = "" then .error .emptyLoggerName
          else
            .ok { level := level, format := log_format, output := output,
                  file_path := file_path,
                  include_location := include_location,
                  logger_name := logger_name }

/-! ## The stdlib-logging / structlog backend state -/

/-- A handler attached to a stdlib logger: `logging.FileHandler(path)`
or `logging.StreamHandler(stream=sys.stdout)`. -/
inductive Handler where
  | fileHandler (path : String)
  | streamHandler
  deriving DecidableEq, Repr

/-- The structlog processors assembled by `_configure_structlog`
(`logs.py` lines 205-233), identified by name. -/
inductive ProcName where
  | mergeContextvars
  | addLogLevel
  | addLoggerName
  | positionalArgumentsFormatter
  | callsiteParameterAdder
  | timeStamper
  | stackInfoRenderer
  | formatExcInfo
  | unicodeDecoder
  | jsonRenderer
  | consoleRenderer
  deriving DecidableEq, Repr

/-- `logging.CRITICAL` .. `logging.DEBUG` numeric levels, as mapped by
`log_level_map` (`logs.py` lines 196-203). -/
def levelToNat : LogLevel → Nat
  | .CRITICAL => 50
  | .ERROR => 40
  | .WARNING => 30
  | .INFO => 20
  | .DEBUG => 10

/-- The `shared_processors` list plus renderer (`logs.py` lines
205-233): the location processor is inserted at index 3 when
`include_location`, and the renderer chosen by `format` is appended. -/
def buildProcessors (cfg : LoggingConfig) : List ProcName :=
  let shared : List ProcName :=
    [.mergeContextvars, .addLogLevel, .addLoggerName,
     .positionalArgumentsFormatter, .timeStamper, .stackInfoRenderer,
     .formatExcInfo, .unicodeDecoder]
  let shared :=
    if cfg.include_location then List.insertIdx 3 .callsiteParameterAdder shared
    else shared
  let renderer : ProcName :=
    if cfg.format = .JSON then .jsonRenderer else .consoleRenderer
  shared ++ [renderer]

/-- Oracle for the file-system effects used by `_configure_structlog`:
`Path.exists`, `Path.is_dir`, `Path.is_file`, the outcome of
`log_path.parent.mkdir(parents=True, exist_ok=True)` and of
`logging.FileHandler(path)`.  `mkdirParentsError p` / `openFileError p`
are the `OSError`/`PermissionError` message for the operation applied
to the file path `p` (the `Path.parent` computation is folded into the
oracle), or `none` when the operation succeeds. -/
structure FileSystem where
  pathExists : String → Bool
  isDir : String → Bool
  isFile : String → Bool
  mkdirParentsError : String → Option String
  openFileError : String → Option String

/-- The sink-opening part of `_configure_structlog` (`logs.py` lines
246-258).  For `output=file`: the directory check raises `ValueError`;
inside the `try` block, an `OSError`/`PermissionError` from `mkdir` or
`FileHandler` is wrapped into `RuntimeError` (`fileHandlerFailed`),
while the not-a-regular-file `ValueError` is not caught by the
`except (OSError, PermissionError)` clause and propagates as a
`ValueError`.  For `output=stdout`: a stream handler on `sys.stdout`. -/
def createHandler (cfg : LoggingConfig) (fs : FileSystem) :
    Except LogError Handler :=
  if cfg.output = .FILE then
    if fs.pathExists cfg.file_path && fs.isDir cfg.file_path then
      .error (.filePathIsDirectory cfg.file_path)
    else
      match fs.mkdirParentsError cfg.file_path with
      | some e => .error (.fileHandlerFailed cfg.file_path e)
      | none =>
        if fs.pathExists cfg.file_path && !fs.isFile cfg.file_path then
          .error (.filePathNotRegularFile cfg.file_path)
        else
          match fs.openFileError cfg.file_path with
          | some e => .error (.fileHandlerFailed cfg.file_path e)
          | none => .ok (.fileHandler cfg.file_path)
  else
    .ok .streamHandler

/-- The process-global logging state touched by `_configure_structlog`
and `reset`: the per-name stdlib handler lists and levels, the per-name
`propagate` flag, and the global structlog processor configuration
(`none` models structlog defaults, as after `reset_defaults()`). -/
structure LoggingState where
  handlers : String → List Handler
  levels : String → Option Nat
  propagate : String → Bool
  structlogProcessors : Option (List ProcName)

/-- `LoggerFactory._configure_structlog` (`logs.py` lines 193-264), as
a state transformer.  Mutations happen in source order: the structlog
pipeline is configured and the logger's level set *before* the sink is
opened, so those mutations persist even when sink creation raises; the
handler replacement (`handlers.clear()` then `addHandler`) and the
caching of the default logger handle happen only on success.  The
returned `String` is the `structlog.get_logger(config.logger_name)`
handle assigned to `cls._default_logger`. -/
def configureStructlog (cfg : LoggingConfig) (fs : FileSystem)
    (st : LoggingState) : LoggingState × Except LogError String :=
  let st1 := { st with structlogProcessors := some (buildProcessors cfg) }
  let st2 := { st1 with
    levels := fun n =>
      if n = cfg.logger_name then some (levelToNat cfg.level)
      else st1.levels n }
  match createHandler cfg fs with
  | .error e => (st2, .error e)
  | .ok h =>
    let st3 := { st2 with
      handlers := fun n =>
        if n = cfg.logger_name then [h] else st2.handlers n
      propagate := fun n =>
        if n = cfg.logger_name then false else st2.propagate n }
    (st3, .ok cfg.logger_name)

/-- The `LoggerFactory` class state (`logs.py` lines 116-119):
`_configured`, `_config`, `_default_logger` (modelled as the name the
structlog handle is bound to), plus the global logging state the
factory mutates. -/
structure FactoryState where
  configured : Bool
  config : Option LoggingConfig
  defaultLogger : Option String
  logging : LoggingState

/-- The state before the module-level bootstrap: the factory fields at
their class defaults and a pristine stdlib-logging registry. -/
def initState : FactoryState :=
  { configured := false
    config := none
    defaultLogger := none
    logging := { handlers := fun _ => []
                 levels := fun _ => none
                 propagate := fun _ => true
                 structlogProcessors := none } }

/-- The body of `LoggerFactory.configure` once a `LoggingConfig` is in
hand (`logs.py` lines 189-191): `cls._config = config` is assigned
*before* `_configure_structlog(config)` runs (which never reads
`_config`), so the new config is stored even when backend wiring
raises; `cls._configured = True` runs only after successful wiring.
The returned `Option LogError` is the propagated exception, `none` on
success. -/
def FactoryState.applyConfig (s : FactoryState) (cfg : LoggingConfig)
    (fs : FileSystem) : FactoryState × Option LogError :=
  match configureStructlog cfg fs s.logging with
  | (lst, .error e) => ({ s with config := some cfg, logging := lst }, some e)
  | (lst, .ok handle) =>
    ({ s with
       config := some cfg
       logging := lst
       defaultLogger := some handle
       configured := true }, none)

/-- `LoggerFactory.configure(config)` with an explicit config
(`logs.py` lines 168-191, the `config is not None` path). -/
def FactoryState.configure (s : FactoryState) (cfg : LoggingConfig)
    (fs : FileSystem) : FactoryState × Option LogError :=
  s.applyConfig cfg fs

/-- `LoggerFactory.get_config` (`logs.py` lines 295-298). -/
def FactoryState.get_config (s : FactoryState) : Option LoggingConfig :=
  s.config

/-- `LoggerFactory.reset` (`logs.py` lines 283-293): clears the
handlers of the current config's logger name (when a config is set),
then clears all factory fields and resets structlog defaults. -/
def FactoryState.reset (s : FactoryState) : FactoryState :=
  let lst :=
    match s.config with
    | some cfg =>
      { s.logging with
        handlers := fun n =>
          if n = cfg.logger_name then [] else s.logging.handlers n }
    | none => s.logging
  { configured := false
    config := none
    defaultLogger := none
    logging := { lst with structlogProcessors := none } }

/-! ## The dotenv layer (`load_environment_variables`) -/

/-- Python `dict.__setitem__`: replace the first binding of the key in
place, or append a fresh binding.  On duplicate-free lists this is
exactly Python dict assignment. -/
def dictSet : EnvMap → String → String → EnvMap
  | [], k, v => [(k, v)]
  | (k1, v1) :: rest, k, v =>
    if k1 = k then (k, v) :: rest else (k1, v1) :: dictSet rest k v

/-- Add a binding only when the key is absent (the effect of
`load_dotenv(..., override=False)` per key, and of the
`if key not in env: env[key] = value` copy loops). -/
def setIfAbsent (m : EnvMap) (k v : String) : EnvMap :=
  match m.lookup k with
  | some _ => m
  | none => m ++ [(k, v)]

/-- Oracle for the dotenv files on disk: `os.path.exists(p)` and the
key-value pairs `load_dotenv(p)` would read from file `p`. -/
structure DotenvFS where
  fileExists : String → Bool
  fileVars : String → EnvMap

/-- `load_dotenv(path, override=False)`: merge the file's variables
into the process environment, never overwriting existing keys. -/
def loadDotenv (dfs : DotenvFS) (path : String) (environ : EnvMap) : EnvMap :=
  (dfs.fileVars path).foldl (fun m kv => setIfAbsent m kv.1 kv.2) environ

/-- The `for key, value in os.environ.items(): if key not in env:
env[key] = value` copy loops (`logs.py` lines 143-145 etc.). -/
def copyAbsent (src dst : EnvMap) : EnvMap :=
  src.foldl (fun d kv => setIfAbsent d kv.1 kv.2) dst

/-- Python `os.environ.clear(); os.environ.update(original_env)`:
rebuild the environment dict from the saved copy. -/
def clearThenUpdate (original : EnvMap) : EnvMap :=
  original.foldl (fun m kv => dictSet m kv.1 kv.2) []

/-- One `if os.path.exists(file): load_dotenv(file, override=False);
copy absent keys of os.environ into env` block of the explicit-env
branch (`logs.py` lines 141-150 and 153-158), acting on the
`(os.environ, env)` pair. -/
def dotenvStep (dfs : DotenvFS) (file : String) (pr : EnvMap × EnvMap) :
    EnvMap × EnvMap :=
  if dfs.fileExists file then
    let e := loadDotenv dfs file pr.1
    (e, copyAbsent e pr.2)
  else pr

/-- The `profile = env.get("PROFILE", original_env.get("PROFILE",
"NONE"))` resolution followed by the guarded `.env.{profile}` load
(`logs.py` lines 151-158). -/
def profileStep (dfs : DotenvFS) (original : EnvMap)
    (pr : EnvMap × EnvMap) : EnvMap × EnvMap :=
  let profile :=
    match pr.2.lookup "PROFILE" with
    | some p => p
    | none => envGet original "PROFILE" "NONE"
  if profile ≠ "NONE" then dotenvStep dfs (".env." ++ profile) pr
  else pr

/-- `LoggerFactory.load_environment_variables(env)` with an explicit
`env` dict (`logs.py` lines 139-166, the `else` branch): saves
`original_env = os.environ.copy()`, loads `.env.shared`, `.env`, and
`.env.{profile}` into `os.environ` (never overriding), after each load
copying the absent keys of `os.environ` into `env`, and finally clears
and restores `os.environ` from the saved copy.  Returns the final
`(os.environ, env)` pair. -/
def load_environment_variables_explicit (dfs : DotenvFS)
    (environ env : EnvMap) : EnvMap × EnvMap :=
  let original := environ
  let p1 := dotenvStep dfs ".env.shared" (environ, env)
  let p2 := dotenvStep dfs ".env" p1
  let p3 := profileStep dfs original p2
  (clearThenUpdate original, p3.2)

/-- `LoggerFactory.load_environment_variables()` with `env=None`
(`logs.py` lines 129-138): the dotenv files are merged directly into
`os.environ` (never overriding) and stay there; the profile is read
from `os.environ` after the first two loads. -/
def load_environment_variables_global (dfs : DotenvFS)
    (environ : EnvMap) : EnvMap :=
  let e1 :=
    if dfs.fileExists ".env.shared" then loadDotenv dfs ".env.shared" environ
    else environ
  let e2 := if dfs.fileExists ".env" then loadDotenv dfs ".env" e1 else e1
  let profile := envGet e2 "PROFILE" "NONE"
  if profile ≠ "NONE" then
    let envpath := ".env." ++ profile
    if dfs.fileExists envpath then loadDotenv dfs envpath e2 else e2
  else e2

/-! ## `configure()` without an explicit config, and the accessors -/

/-- `LoggerFactory.configure()` with `config=None, env=None`
(`logs.py` lines 181-191): loads dotenv files into `os.environ`, then
resolves `LoggingConfig.from_env` on it; a resolution error propagates
before any factory field is touched.  Returns the new factory state,
the new `os.environ`, and the propagated exception, if any. -/
def FactoryState.configureAuto (s : FactoryState) (dfs : DotenvFS)
    (environ : EnvMap) (fs : FileSystem) :
    FactoryState × EnvMap × Option LogError :=
  let environ1 := load_environment_variables_global dfs environ
  match LoggingConfig.from_env environ1 with
  | .error e => (s, environ1, some e)
  | .ok cfg =>
    let r := s.applyConfig cfg fs
    (r.1, environ1, r.2)

/-- `LoggerFactory.configure(env=...)` with `config=None` and an
explicit env dict (`logs.py` lines 181-191, `env is not None`):
`load_environment_variables(env)` mutates `env` (restoring
`os.environ`), then `from_env(env)` resolves from the mutated dict. -/
def FactoryState.configureEnvDict (s : FactoryState) (dfs : DotenvFS)
    (environ env : EnvMap) (fs : FileSystem) :
    FactoryState × EnvMap × Option LogError :=
  let p := load_environment_variables_explicit dfs environ env
  match LoggingConfig.from_env p.2 with
  | .error e => (s, p.1, some e)
  | .ok cfg =>
    let r := s.applyConfig cfg fs
    (r.1, p.1, r.2)

/-- `LoggerFactory.get_default_logger` (`logs.py` lines 266-281): when
not configured, runs `cls.configure()` first (propagating its
exception); then raises `RuntimeError` when `_default_logger` is still
`None`, else returns the cached handle. -/
def FactoryState.get_default_logger (s : FactoryState) (dfs : DotenvFS)
    (environ : EnvMap) (fs : FileSystem) :
    FactoryState × EnvMap × Except LogError String :=
  let step :=
    if s.configured then (s, environ, (none : Option LogError))
    else s.configureAuto dfs environ fs
  match step with
  | (s1, environ1, some e) => (s1, environ1, .error e)
  | (s1, environ1, none) =>
    match s1.defaultLogger with
    | none => (s1, environ1, .error .notProperlyConfigured)
    | some h => (s1, environ1, .ok h)

/-- Factory states reachable from the pristine state through the public
lifecycle operations (including the module-level bootstrap `configure()`
call, which is an instance of `configureAuto`). -/
inductive Reachable : FactoryState → Prop where
  | init : Reachable initState
  | configure {s} (cfg : LoggingConfig) (fs : FileSystem) :
      Reachable s → Reachable (s.configure cfg fs).1
  | configureAuto {s} (dfs : DotenvFS) (environ : EnvMap) (fs : FileSystem) :
      Reachable s → Reachable (s.configureAuto dfs environ fs).1
  | configureEnvDict {s} (dfs : DotenvFS) (environ env : EnvMap)
      (fs : FileSystem) :
      Reachable s → Reachable (s.configureEnvDict dfs environ env fs).1
  | reset {s} : Reachable s → Reachable s.reset
  | getDefault {s} (dfs : DotenvFS) (environ : EnvMap) (fs : FileSystem) :
      Reachable s → Reachable (s.get_default_logger dfs environ fs).1

/-! ## Spec-side predicates and helper lemmas -/

/-- The error carried by an `Except` result, if any. -/
def raisedError {ε α : Type} : Except ε α → Option ε
  | .error e => some e
  | .ok _ => none

/-- Spec-side description of the resolver's error order, written from
the spec's words: the first violated constraint in the fixed order
level, format, output, filePath, loggerName (location has no error
path).  Used to state C3 as a refinement of `from_env`. -/
def firstViolation (env : EnvMap) : Option LogError :=
  let level_str := pyUpper (envGet env "LOGGING_LEVEL" "DEBUG")
  if parseLevel level_str = none then some (.invalidLevel level_str)
  else
    let format_str := pyLower (envGet env "LOGGING_FORMAT" "console")
    if parseFormat format_str = none then some (.invalidFormat format_str)
    else
      let output_str := pyLower (envGet env "LOGGING_OUTPUT" "stdout")
      if parseOutput output_str = none then some (.invalidOutput output_str)
      else
        let file_path := envGet env "LOGGING_FILE_PATH" "app.log"
        if file_path = "" then some .emptyFilePath
        else if file_path.length > 4096 then
          some (.filePathTooLong file_path.length)
        else
          let logger_name := envGet env "LOGGING_LOGGER_NAME" "logs"
          if logger_name = "" then some .emptyLoggerName
          else none

/-- The spec's field constraints on a `LoggingConfig` value (the enum
fields are constrained by their types in the embedding): non-empty
`filePath` of at most 4096 characters, non-empty `loggerName`. -/
def validConfig (cfg : LoggingConfig) : Prop :=
  cfg.file_path ≠ "" ∧ cfg.file_path.length ≤ 4096 ∧ cfg.logger_name ≠ ""

instance (cfg : LoggingConfig) : Decidable (validConfig cfg) := by
  unfold validConfig
  infer_instance

/-! ## Concrete fixtures used by witnesses and counterexamples -/

/-- A file system on which nothing exists and every operation
succeeds. -/
def fsEmpty : FileSystem :=
  { pathExists := fun _ => false
    isDir := fun _ => false
    isFile := fun _ => false
    mkdirParentsError := fun _ => none
    openFileError := fun _ => none }

/-- A working directory holding no dotenv file. -/
def dfsEmpty : DotenvFS :=
  { fileExists := fun _ => false
    fileVars := fun _ => [] }

/-- A config that logs to the file path "somedir" (defaults
otherwise). -/
def cfgToDir : LoggingConfig := { output := .FILE, file_path := "somedir" }

/-- A file system on which "somedir" is an existing directory and
everything else succeeds. -/
def fsWithDir : FileSystem :=
  { pathExists := fun p => p == "somedir"
    isDir := fun p => p == "somedir"
    isFile := fun _ => false
    mkdirParentsError := fun _ => none
    openFileError := fun _ => none }


/-- The lifecycle invariant behind C8: whenever the `configured` flag
is set, a default logger handle is cached. -/
def handleInv (s : FactoryState) : Prop :=
  s.configured = true → s.defaultLogger.isSome = true

/-- A working directory with a single `.env` file defining A and B. -/
def dfsSample : DotenvFS :=
  { fileExists := fun p => p == ".env"
    fileVars := fun p => if p == ".env" then [("A", "2"), ("B", "3")] else [] }

/-! ## Theorems -/

/-- `from_env` succeeds on every mapping whose normalized values are
valid, and its fields are the normalized inputs (defaults for absent
keys). -/
theorem from_env_ok_of_valid (env : EnvMap) (lv : LogLevel)
    (fm : LogFormat) (op : LogOutput)
    (hlv : parseLevel (pyUpper (envGet env "LOGGING_LEVEL" "DEBUG")) = some lv)
    (hfm : parseFormat (pyLower (envGet env "LOGGING_FORMAT" "console")) = some fm)
    (hop : parseOutput (pyLower (envGet env "LOGGING_OUTPUT" "stdout")) = some op)
    (hne : envGet env "LOGGING_FILE_PATH" "app.log" ≠ "")
    (hlen : (envGet env "LOGGING_FILE_PATH" "app.log").length ≤ 4096)
    (hln : envGet env "LOGGING_LOGGER_NAME" "logs" ≠ "") :
    LoggingConfig.from_env env =
      .ok { level := lv
            format := fm
            output := op
            file_path := envGet env "LOGGING_FILE_PATH" "app.log"
            include_location := (["true", "1", "yes"] : List String).contains
              (pyLower (envGet env "LOGGING_INCLUDE_LOCATION" "false"))
            logger_name := envGet env "LOGGING_LOGGER_NAME" "logs" } := by
  have hlen2 : ¬ (envGet env "LOGGING_FILE_PATH" "app.log").length > 4096 := by
    omega
  simp [LoggingConfig.from_env, hlv, hfm, hop, hne, hlen2, hln]

/-- `from_env` raises the file-path length error when the earlier
fields are valid and the path exceeds 4096 characters. -/
theorem from_env_filePathTooLong (env : EnvMap) (lv : LogLevel)
    (fm : LogFormat) (op : LogOutput)
    (hlv : parseLevel (pyUpper (envGet env "LOGGING_LEVEL" "DEBUG")) = some lv)
    (hfm : parseFormat (pyLower (envGet env "LOGGING_FORMAT" "console")) = some fm)
    (hop : parseOutput (pyLower (envGet env "LOGGING_OUTPUT" "stdout")) = some op)
    (hne : envGet env "LOGGING_FILE_PATH" "app.log" ≠ "")
    (hlen : (envGet env "LOGGING_FILE_PATH" "app.log").length > 4096) :
    LoggingConfig.from_env env =
      .error (.filePathTooLong
        (envGet env "LOGGING_FILE_PATH" "app.log").length) := by
  simp [LoggingConfig.from_env, hlv, hfm, hop, hne, hlen]

/-! ## Claims about the resolver -/

/-- C3: `LoggingConfig.from_env` fails with the error of the first
violated constraint in the fixed order level, format, output, filePath,
loggerName: its raised error coincides, for every input mapping, with
the spec-side `firstViolation` that checks the constraints in exactly
that order and never examines a later field after a failure. -/
theorem from_env_first_violation (env : EnvMap) :
    raisedError (LoggingConfig.from_env env) = firstViolation env := by
  unfold LoggingConfig.from_env firstViolation
  cases hlv : parseLevel (pyUpper (envGet env "LOGGING_LEVEL" "DEBUG")) <;>
    simp [hlv, raisedError]
  cases hfm : parseFormat (pyLower (envGet env "LOGGING_FORMAT" "console")) <;>
    simp [hfm, raisedError]
  cases hop : parseOutput (pyLower (envGet env "LOGGING_OUTPUT" "stdout")) <;>
    simp [hop, raisedError]
  by_cases hfp : envGet env "LOGGING_FILE_PATH" "app.log" = "" <;>
    try simp [hfp, raisedError]
  by_cases hlen : 4096 < (envGet env "LOGGING_FILE_PATH" "app.log").length <;>
    try simp [hlen, raisedError]
  by_cases hln : envGet env "LOGGING_LOGGER_NAME" "logs" = "" <;>
    simp [hln, raisedError]

/-- C4: on a mapping whose values are valid after case normalization
(level uppercased, format and output lowercased), `from_env` returns
the config whose fields are the normalized inputs, absent keys taking
the documented defaults. -/
theorem from_env_ok_normalized (env : EnvMap) (lv : LogLevel)
    (fm : LogFormat) (op : LogOutput)
    (hlv : parseLevel (pyUpper (envGet env "LOGGING_LEVEL" "DEBUG")) = some lv)
    (hfm : parseFormat (pyLower (envGet env "LOGGING_FORMAT" "console")) = some fm)
    (hop : parseOutput (pyLower (envGet env "LOGGING_OUTPUT" "stdout")) = some op)
    (hne : envGet env "LOGGING_FILE_PATH" "app.log" ≠ "")
    (hlen : (envGet env "LOGGING_FILE_PATH" "app.log").length ≤ 4096)
    (hln : envGet env "LOGGING_LOGGER_NAME" "logs" ≠ "") :
    LoggingConfig.from_env env =
      .ok { level := lv
            format := fm
            output := op
            file_path := envGet env "LOGGING_FILE_PATH" "app.log"
            include_location := (["true", "1", "yes"] : List String).contains
              (pyLower (envGet env "LOGGING_INCLUDE_LOCATION" "false"))
            logger_name := envGet env "LOGGING_LOGGER_NAME" "logs" } :=
  from_env_ok_of_valid env lv fm op hlv hfm hop hne hlen hln

/-- Witness for C4, which is also the spec's example:
`resolve({"LOGGING_LEVEL":"warning","LOGGING_FORMAT":"JSON"})` yields
level WARNING, format json, output stdout, filePath "app.log",
includeLocation false, loggerName "logs". -/
theorem from_env_ok_normalized_witness :
    LoggingConfig.from_env
        [("LOGGING_LEVEL", "warning"), ("LOGGING_FORMAT", "JSON")] =
      .ok { level := .WARNING
            format := .JSON
            output := .STDOUT
            file_path := "app.log"
            include_location := false
            logger_name := "logs" } :=
  from_env_ok_normalized
    [("LOGGING_LEVEL", "warning"), ("LOGGING_FORMAT", "JSON")]
    .WARNING .JSON .STDOUT (by decide) (by decide) (by decide)
    (by decide) (by decide) (by decide)

/-- C9: a `LOGGING_FILE_PATH` of length exactly 4097 fails with the
length `ConfigError`, while length exactly 4096 succeeds: the bound is
inclusive at 4096. -/
theorem from_env_filePath_length_bound :
    LoggingConfig.from_env
        [("LOGGING_FILE_PATH", String.mk (List.replicate 4097 'a'))] =
      .error (.filePathTooLong 4097) ∧
    LoggingConfig.from_env
        [("LOGGING_FILE_PATH", String.mk (List.replicate 4096 'a'))] =
      .ok { level := .DEBUG
            format := .CONSOLE
            output := .STDOUT
            file_path := String.mk (List.replicate 4096 'a')
            include_location := false
            logger_name := "logs" } := by
  have hget97 : envGet [("LOGGING_FILE_PATH", String.mk (List.replicate 4097 'a'))]
      "LOGGING_FILE_PATH" "app.log" = String.mk (List.replicate 4097 'a') := rfl
  have hget96 : envGet [("LOGGING_FILE_PATH", String.mk (List.replicate 4096 'a'))]
      "LOGGING_FILE_PATH" "app.log" = String.mk (List.replicate 4096 'a') := rfl
  have hlen97 : (String.mk (List.replicate 4097 'a')).length = 4097 :=
    List.length_replicate 4097 'a'
  have hlen96 : (String.mk (List.replicate 4096 'a')).length = 4096 :=
    List.length_replicate 4096 'a'
  have hne97 : String.mk (List.replicate 4097 'a') ≠ "" := by
    intro h
    have : (String.mk (List.replicate 4097 'a')).length = (0 : Nat) := by
      rw [h]
      rfl
    omega
  have hne96 : String.mk (List.replicate 4096 'a') ≠ "" := by
    intro h
    have : (String.mk (List.replicate 4096 'a')).length = (0 : Nat) := by
      rw [h]
      rfl
    omega
  constructor
  · have := from_env_filePathTooLong
      [("LOGGING_FILE_PATH", String.mk (List.replicate 4097 'a'))]
      .DEBUG .CONSOLE .STDOUT (by decide) (by decide) (by decide)
      (by rw [hget97]; exact hne97) (by rw [hget97]; omega)
    rw [this, hget97, hlen97]
  · have := from_env_ok_of_valid
      [("LOGGING_FILE_PATH", String.mk (List.replicate 4096 'a'))]
      .DEBUG .CONSOLE .STDOUT (by decide) (by decide) (by decide)
      (by rw [hget96]; exact hne96) (by rw [hget96]; omega) (by decide)
    rw [this, hget96]
    rfl

/-! ## Claims about the factory lifecycle -/

/-- C1 counterexample: from the unconfigured initial state, a
`configure` call whose backend wiring fails (output=file and the file
path is an existing directory) raises the `ValueError`, but
`get_config` afterwards returns the config passed to the failing call
rather than the prior (absent) configuration: the source stores
`_config = config` before wiring the backend. -/
theorem configure_failure_changes_get_config :
    initState.get_config = none ∧
    (initState.configure cfgToDir fsWithDir).2 =
      some (.filePathIsDirectory "somedir") ∧
    (initState.configure cfgToDir fsWithDir).1.get_config = some cfgToDir ∧
    (initState.configure cfgToDir fsWithDir).1.get_config ≠
      initState.get_config :=
  ⟨rfl, rfl, rfl, by decide⟩

/-- C1 amended: when backend wiring fails, `configure` raises the
wiring error, does not flip `configured` to true, and leaves the cached
default handle unchanged, but `get_config` afterwards returns the
config passed to the failing call (not the prior one). -/
theorem configure_failure_state (s : FactoryState) (cfg : LoggingConfig)
    (fs : FileSystem) (e : LogError)
    (h : createHandler cfg fs = .error e) :
    (s.configure cfg fs).2 = some e ∧
    (s.configure cfg fs).1.configured = s.configured ∧
    (s.configure cfg fs).1.defaultLogger = s.defaultLogger ∧
    (s.configure cfg fs).1.get_config = some cfg := by
  unfold FactoryState.configure FactoryState.applyConfig configureStructlog
    FactoryState.get_config
  simp [h]

/-- Witness for the amended C1 at a concrete failing input. -/
theorem configure_failure_state_witness :
    createHandler cfgToDir fsWithDir =
      .error (.filePathIsDirectory "somedir") ∧
    ((initState.configure cfgToDir fsWithDir).2 =
        some (.filePathIsDirectory "somedir") ∧
      (initState.configure cfgToDir fsWithDir).1.configured =
        initState.configured ∧
      (initState.configure cfgToDir fsWithDir).1.defaultLogger =
        initState.defaultLogger ∧
      (initState.configure cfgToDir fsWithDir).1.get_config =
        some cfgToDir) :=
  ⟨rfl, configure_failure_state initState cfgToDir fsWithDir
    (.filePathIsDirectory "somedir") rfl⟩

/-- C5 counterexample: the `LoggingConfig` dataclass performs no
validation at construction: a config with an empty `filePath` is
constructible, `configure` accepts it (output=stdout never inspects the
path), and `get_config` then observes the constraint-violating
config. -/
theorem config_construction_unvalidated :
    ¬ validConfig { file_path := "" } ∧
    (initState.configure { file_path := "" } fsEmpty).2 = none ∧
    (initState.configure { file_path := "" } fsEmpty).1.get_config =
      some { file_path := "" } :=
  ⟨by decide, rfl, rfl⟩

/-- C5 amended: every `LoggingConfig` that `from_env` returns satisfies
the spec's field constraints (the enum fields are constrained by
typing); only direct dataclass construction can bypass them. -/
theorem from_env_validates (env : EnvMap) (cfg : LoggingConfig)
    (h : LoggingConfig.from_env env = .ok cfg) : validConfig cfg := by
  simp only [LoggingConfig.from_env] at h
  repeat' split at h
  all_goals simp_all [validConfig]
  subst h
  simp_all [validConfig]

/-- Witness for the amended C5: the all-defaults resolution yields a
constraint-satisfying config. -/
theorem from_env_validates_witness :
    LoggingConfig.from_env [] =
      .ok { level := .DEBUG
            format := .CONSOLE
            output := .STDOUT
            file_path := "app.log"
            include_location := false
            logger_name := "logs" } ∧
    validConfig { level := .DEBUG
                  format := .CONSOLE
                  output := .STDOUT
                  file_path := "app.log"
                  include_location := false
                  logger_name := "logs" } :=
  ⟨rfl, from_env_validates [] _ rfl⟩

/-- C2: a successful `configure` leaves exactly one handler attached
to the config's logger name (the old handlers are cleared before the
new one is attached), for any prior state - hence any sequence of
successful `configure` calls with the same config ends with exactly one
attached sink and never accumulates duplicates. -/
theorem configure_exactly_one_handler (s : FactoryState)
    (cfg : LoggingConfig) (fs : FileSystem)
    (h : (s.configure cfg fs).2 = none) :
    ∃ hd, (s.configure cfg fs).1.logging.handlers cfg.logger_name = [hd] := by
  unfold FactoryState.configure FactoryState.applyConfig
    configureStructlog at *
  cases hch : createHandler cfg fs with
  | error e => simp [hch] at h
  | ok hd => exact ⟨hd, by simp [hch]⟩

/-- Witness for C2: configuring twice with the default config from the
initial state succeeds and leaves a single stream handler attached. -/
theorem configure_exactly_one_handler_witness :
    (((initState.configure { } fsEmpty).1).configure { } fsEmpty).2 = none ∧
    ∃ hd, ((((initState.configure { } fsEmpty).1).configure { } fsEmpty).1).logging.handlers
        "logs" = [hd] :=
  ⟨rfl, configure_exactly_one_handler (initState.configure { } fsEmpty).1
    { } fsEmpty rfl⟩

/-- C6: with `output=file`, an existing-directory path fails with the
`ValueError` the spec calls `ConfigError`; otherwise, an
`OSError`/`PermissionError` from `mkdir` or from creating the
`FileHandler` fails with the wrapping `RuntimeError` the spec calls
`BackendError`; and an error returned by the sink-opening code is a
`BackendError` exactly when it wraps an underlying OS error, so the two
kinds are never interchanged. -/
theorem createHandler_error_taxonomy (cfg : LoggingConfig)
    (fs : FileSystem) (hout : cfg.output = .FILE) :
    ((fs.pathExists cfg.file_path && fs.isDir cfg.file_path) = true →
      createHandler cfg fs = .error (.filePathIsDirectory cfg.file_path) ∧
      (LogError.filePathIsDirectory cfg.file_path).pythonException =
        .valueError) ∧
    (∀ m, (fs.pathExists cfg.file_path && fs.isDir cfg.file_path) = false →
      fs.mkdirParentsError cfg.file_path = some m →
      createHandler cfg fs = .error (.fileHandlerFailed cfg.file_path m) ∧
      (LogError.fileHandlerFailed cfg.file_path m).pythonException =
        .runtimeError) ∧
    (∀ m, (fs.pathExists cfg.file_path && fs.isDir cfg.file_path) = false →
      fs.mkdirParentsError cfg.file_path = none →
      (fs.pathExists cfg.file_path && !fs.isFile cfg.file_path) = false →
      fs.openFileError cfg.file_path = some m →
      createHandler cfg fs = .error (.fileHandlerFailed cfg.file_path m) ∧
      (LogError.fileHandlerFailed cfg.file_path m).pythonException =
        .runtimeError) ∧
    (∀ e, createHandler cfg fs = .error e →
      (e.isBackendError = true ↔ ∃ m, e = .fileHandlerFailed cfg.file_path m)) := by
  refine ⟨?_, ?_, ?_, ?_⟩
  · intro hdir
    exact ⟨by simp [createHandler, hout, hdir], rfl⟩
  · intro m hdir hmk
    exact ⟨by simp [createHandler, hout, hdir, hmk], rfl⟩
  · intro m hdir hmk hreg hopen
    exact ⟨by simp [createHandler, hout, hdir, hmk, hreg, hopen], rfl⟩
  · intro e he
    unfold createHandler at he
    rw [if_pos hout] at he
    by_cases hdir : (fs.pathExists cfg.file_path && fs.isDir cfg.file_path) = true
    · rw [if_pos hdir] at he
      cases he
      simp [LogError.isBackendError]
    · rw [if_neg hdir] at he
      cases hmk : fs.mkdirParentsError cfg.file_path with
      | some m =>
        rw [hmk] at he
        cases he
        simp [LogError.isBackendError]
      | none =>
        rw [hmk] at he
        by_cases hreg :
            (fs.pathExists cfg.file_path && !fs.isFile cfg.file_path) = true
        · rw [if_pos hreg] at he
          cases he
          simp [LogError.isBackendError]
        · rw [if_neg hreg] at he
          cases hopen : fs.openFileError cfg.file_path with
          | some m =>
            rw [hopen] at he
            cases he
            simp [LogError.isBackendError]
          | none =>
            rw [hopen] at he
            cases he

/-- Witness for C6 at a concrete input: an existing-directory path
fails with the directory `ValueError`. -/
theorem createHandler_error_taxonomy_witness :
    createHandler cfgToDir fsWithDir =
      .error (.filePathIsDirectory "somedir") ∧
    (LogError.filePathIsDirectory "somedir").pythonException = .valueError :=
  (createHandler_error_taxonomy cfgToDir fsWithDir rfl).1 rfl

/-- C7: after `configure(cfg)` then `reset()`, `get_config` is absent
and the default handle is cleared; the reset state is unconfigured, so
a subsequent `get_default_logger` performs the implicit default
`configure()` (its resulting state is exactly the state that
`configure()` from the environment produces); and `reset` is
idempotent (reset of a reset state changes nothing). -/
theorem reset_clears_state_and_idempotent (s : FactoryState)
    (cfg : LoggingConfig) (fs : FileSystem) (dfs : DotenvFS)
    (environ : EnvMap) (fs2 : FileSystem) :
    ((s.configure cfg fs).1.reset).get_config = none ∧
    ((s.configure cfg fs).1.reset).defaultLogger = none ∧
    (s.reset).configured = false ∧
    ((s.reset).get_default_logger dfs environ fs2).1 =
      ((s.reset).configureAuto dfs environ fs2).1 ∧
    (s.reset).reset = s.reset := by
  refine ⟨rfl, rfl, rfl, ?_, rfl⟩
  unfold FactoryState.get_default_logger
  have hc : (s.reset).configured = false := rfl
  rw [hc]
  simp only [Bool.false_eq_true, if_false]
  rcases hca : (s.reset).configureAuto dfs environ fs2 with ⟨s1, environ1, err⟩
  cases err with
  | some e => rfl
  | none => cases h1 : s1.defaultLogger <;> simp [h1]

theorem applyConfig_handleInv {s : FactoryState} {cfg : LoggingConfig}
    {fs : FileSystem} (h : handleInv s) :
    handleInv (s.applyConfig cfg fs).1 := by
  unfold handleInv FactoryState.applyConfig
  cases hcs : configureStructlog cfg fs s.logging with
  | mk lst r =>
    cases r with
    | error e => exact fun hc => h hc
    | ok handle => exact fun _ => rfl

theorem configureAuto_handleInv {s : FactoryState} {dfs : DotenvFS}
    {environ : EnvMap} {fs : FileSystem} (h : handleInv s) :
    handleInv (s.configureAuto dfs environ fs).1 := by
  unfold FactoryState.configureAuto
  dsimp only
  cases LoggingConfig.from_env
      (load_environment_variables_global dfs environ) with
  | error e => exact h
  | ok cfg => exact applyConfig_handleInv h

theorem configureEnvDict_handleInv {s : FactoryState} {dfs : DotenvFS}
    {environ env : EnvMap} {fs : FileSystem} (h : handleInv s) :
    handleInv (s.configureEnvDict dfs environ env fs).1 := by
  unfold FactoryState.configureEnvDict
  dsimp only
  cases LoggingConfig.from_env
      (load_environment_variables_explicit dfs environ env).2 with
  | error e => exact h
  | ok cfg => exact applyConfig_handleInv h

theorem get_default_logger_handleInv {s : FactoryState} {dfs : DotenvFS}
    {environ : EnvMap} {fs : FileSystem} (h : handleInv s) :
    handleInv (s.get_default_logger dfs environ fs).1 := by
  unfold FactoryState.get_default_logger
  by_cases hc : s.configured = true
  · rw [if_pos hc]
    cases h1 : s.defaultLogger <;> simpa [h1] using h
  · have hc2 : s.configured = false := by
      cases hcb : s.configured
      · rfl
      · exact absurd hcb hc
    rw [hc2]
    simp only [Bool.false_eq_true, if_false]
    have h2 : handleInv (s.configureAuto dfs environ fs).1 :=
      configureAuto_handleInv h
    rcases hca : s.configureAuto dfs environ fs with ⟨s1, environ1, err⟩
    rw [hca] at h2
    cases err with
    | some e => exact h2
    | none => cases h1 : s1.defaultLogger <;> simpa [h1] using h2

theorem reachable_handleInv {s : FactoryState} (h : Reachable s) :
    handleInv s := by
  induction h with
  | init => intro hc; cases hc
  | configure cfg fs _ ih => exact applyConfig_handleInv ih
  | configureAuto dfs environ fs _ ih => exact configureAuto_handleInv ih
  | configureEnvDict dfs environ env fs _ ih =>
    exact configureEnvDict_handleInv ih
  | reset _ _ => intro hc; cases hc
  | getDefault dfs environ fs _ ih => exact get_default_logger_handleInv ih

theorem createHandler_error_ne_npc {cfg : LoggingConfig}
    {fs : FileSystem} {e : LogError}
    (h : createHandler cfg fs = .error e) :
    e ≠ .notProperlyConfigured := by
  unfold createHandler at h
  repeat' split at h
  all_goals cases h <;> simp

theorem from_env_error_ne_npc {env : EnvMap} {e : LogError}
    (h : LoggingConfig.from_env env = .error e) :
    e ≠ .notProperlyConfigured := by
  simp only [LoggingConfig.from_env] at h
  repeat' split at h
  all_goals cases h <;> simp

theorem configureStructlog_error {cfg : LoggingConfig} {fs : FileSystem}
    {st : LoggingState} {e : LogError}
    (h : (configureStructlog cfg fs st).2 = .error e) :
    createHandler cfg fs = .error e := by
  unfold configureStructlog at h
  dsimp only at h
  cases hch : createHandler cfg fs with
  | error e2 =>
    rw [hch] at h
    simp at h
    rw [h]
  | ok hd =>
    rw [hch] at h
    simp at h

theorem applyConfig_error {s : FactoryState} {cfg : LoggingConfig}
    {fs : FileSystem} {e : LogError}
    (h : (s.applyConfig cfg fs).2 = some e) :
    (configureStructlog cfg fs s.logging).2 = .error e := by
  unfold FactoryState.applyConfig at h
  cases hcs : configureStructlog cfg fs s.logging with
  | mk lst r =>
    rw [hcs] at h
    cases r with
    | error e2 => simp at h; rw [h]
    | ok handle => simp at h

theorem applyConfig_ok_handle {s : FactoryState} {cfg : LoggingConfig}
    {fs : FileSystem} (h : (s.applyConfig cfg fs).2 = none) :
    ((s.applyConfig cfg fs).1).defaultLogger.isSome = true := by
  unfold FactoryState.applyConfig at *
  revert h
  cases hcs : configureStructlog cfg fs s.logging with
  | mk lst r =>
    cases r with
    | error e =>
      intro h
      dsimp only at h
      cases h
    | ok handle =>
      intro h
      rfl

theorem configureAuto_error_ne_npc {s : FactoryState} {dfs : DotenvFS}
    {environ : EnvMap} {fs : FileSystem} {e : LogError}
    (h : (s.configureAuto dfs environ fs).2.2 = some e) :
    e ≠ .notProperlyConfigured := by
  unfold FactoryState.configureAuto at h
  dsimp only at h
  cases hfe : LoggingConfig.from_env
      (load_environment_variables_global dfs environ) with
  | error e2 =>
    rw [hfe] at h
    simp at h
    rw [← h]
    exact from_env_error_ne_npc hfe
  | ok cfg =>
    rw [hfe] at h
    dsimp only at h
    exact createHandler_error_ne_npc
      (configureStructlog_error (applyConfig_error h))

theorem configureAuto_ok_handle {s : FactoryState} {dfs : DotenvFS}
    {environ : EnvMap} {fs : FileSystem}
    (h : (s.configureAuto dfs environ fs).2.2 = none) :
    ((s.configureAuto dfs environ fs).1).defaultLogger.isSome = true := by
  unfold FactoryState.configureAuto at *
  dsimp only at *
  revert h
  cases hfe : LoggingConfig.from_env
      (load_environment_variables_global dfs environ) with
  | error e2 =>
    intro h
    dsimp only at h
    cases h
  | ok cfg =>
    intro h
    dsimp only at h ⊢
    exact applyConfig_ok_handle h

/-- C8: in every reachable factory state whose `configured` flag is
true, the cached default handle is non-null and `get_default_logger`
returns it without changing any state; moreover, in every reachable
state the internal "not properly configured" `RuntimeError` branch of
`get_default_logger` is unreachable, because every successful configure
caches a handle before setting the flag. -/
theorem get_default_logger_returns_cached (s : FactoryState)
    (hs : Reachable s) :
    (s.configured = true →
      ∃ name, s.defaultLogger = some name ∧
        ∀ (dfs : DotenvFS) (environ : EnvMap) (fs : FileSystem),
          s.get_default_logger dfs environ fs = (s, environ, .ok name)) ∧
    ∀ (dfs : DotenvFS) (environ : EnvMap) (fs : FileSystem),
      (s.get_default_logger dfs environ fs).2.2 ≠
        .error .notProperlyConfigured := by
  have hpart1 : s.configured = true →
      ∃ name, s.defaultLogger = some name ∧
        ∀ (dfs : DotenvFS) (environ : EnvMap) (fs : FileSystem),
          s.get_default_logger dfs environ fs = (s, environ, .ok name) := by
    intro hc
    have hinv := reachable_handleInv hs hc
    cases h1 : s.defaultLogger with
    | none => rw [h1] at hinv; cases hinv
    | some name =>
      refine ⟨name, rfl, fun dfs environ fs => ?_⟩
      unfold FactoryState.get_default_logger
      rw [if_pos hc]
      dsimp only
      rw [h1]
  refine ⟨hpart1, ?_⟩
  intro dfs environ fs
  by_cases hc : s.configured = true
  · obtain ⟨name, _h1, h2⟩ := hpart1 hc
    rw [h2 dfs environ fs]
    simp
  · have hc2 : s.configured = false := by
      cases hcb : s.configured
      · rfl
      · exact absurd hcb hc
    unfold FactoryState.get_default_logger
    rw [hc2]
    simp only [Bool.false_eq_true, if_false]
    rcases hca : s.configureAuto dfs environ fs with ⟨s1, environ1, err⟩
    cases err with
    | some e =>
      have hne : e ≠ .notProperlyConfigured :=
        configureAuto_error_ne_npc (by rw [hca])
      simp [hne]
    | none =>
      have hsome : s1.defaultLogger.isSome = true := by
        have := @configureAuto_ok_handle s dfs environ fs (by rw [hca])
        rw [hca] at this
        exact this
      cases h1 : s1.defaultLogger with
      | none => rw [h1] at hsome; cases hsome
      | some name => simp [h1]

/-- Witness for C8: the state after one successful default `configure`
from the initial state is reachable and configured; its cached handle
is returned unchanged. -/
theorem get_default_logger_returns_cached_witness :
    ∃ name,
      ((initState.configure { } fsEmpty).1).defaultLogger = some name ∧
      ((initState.configure { } fsEmpty).1).get_default_logger dfsEmpty []
          fsEmpty =
        ((initState.configure { } fsEmpty).1, [], .ok name) := by
  obtain ⟨hpart, _⟩ := get_default_logger_returns_cached
    (initState.configure { } fsEmpty).1
    (Reachable.configure { } fsEmpty Reachable.init)
  obtain ⟨name, h1, h2⟩ := hpart rfl
  exact ⟨name, h1, h2 dfsEmpty [] fsEmpty⟩

/-! ## Dictionary lemmas for C10 -/

theorem lookup_append_some {m : EnvMap} {k v : String} (t : EnvMap)
    (h : m.lookup k = some v) : (m ++ t).lookup k = some v := by
  induction m with
  | nil => cases h
  | cons kv rest ih =>
    rcases kv with ⟨k1, v1⟩
    rw [List.cons_append, List.lookup_cons] at *
    cases hk : k == k1 with
    | true => rw [hk] at h; simpa [hk] using h
    | false => rw [hk] at h; simpa [hk] using ih h

theorem lookup_append_none {m : EnvMap} {k : String} (t : EnvMap)
    (h : m.lookup k = none) : (m ++ t).lookup k = t.lookup k := by
  induction m with
  | nil => rfl
  | cons kv rest ih =>
    rcases kv with ⟨k1, v1⟩
    rw [List.cons_append, List.lookup_cons] at *
    cases hk : k == k1 with
    | true => rw [hk] at h; cases h
    | false => rw [hk] at h; simpa [hk] using ih h

theorem dictSet_of_lookup_none {m : EnvMap} {k : String} (v : String)
    (h : m.lookup k = none) : dictSet m k v = m ++ [(k, v)] := by
  induction m with
  | nil => rfl
  | cons kv rest ih =>
    rcases kv with ⟨k1, v1⟩
    rw [List.lookup_cons] at h
    cases hk : k == k1 with
    | true => rw [hk] at h; cases h
    | false =>
      rw [hk] at h
      have hne : ¬ k1 = k := by
        intro he
        subst he
        simp at hk
      unfold dictSet
      rw [if_neg hne, ih h, List.cons_append]

theorem foldl_dictSet_eq_append (m : EnvMap) :
    ∀ acc : EnvMap, (∀ p ∈ m, acc.lookup p.1 = none) →
      (m.map Prod.fst).Nodup →
      m.foldl (fun a kv => dictSet a kv.1 kv.2) acc = acc ++ m := by
  induction m with
  | nil => intro acc _ _; simp
  | cons kv rest ih =>
    intro acc habs hnd
    rcases kv with ⟨k, v⟩
    rw [List.foldl_cons]
    have hk : acc.lookup k = none := habs (k, v) (by simp)
    rw [dictSet_of_lookup_none v hk]
    have hknotin : k ∉ rest.map Prod.fst := by
      rw [List.map_cons, List.nodup_cons] at hnd
      exact hnd.1
    have hnd2 : (rest.map Prod.fst).Nodup := by
      rw [List.map_cons, List.nodup_cons] at hnd
      exact hnd.2
    have habs2 : ∀ p ∈ rest, (acc ++ [(k, v)]).lookup p.1 = none := by
      intro p hp
      rw [lookup_append_none [(k, v)] (habs p (List.mem_cons_of_mem _ hp))]
      rw [List.lookup_cons]
      cases hpk : p.1 == k with
      | true =>
        exact absurd (List.mem_map_of_mem Prod.fst hp)
          (by simpa [eq_of_beq hpk] using hknotin)
      | false => rfl
    rw [ih (acc ++ [(k, v)]) habs2 hnd2, List.append_assoc]
    rfl

theorem clearThenUpdate_eq_self (m : EnvMap)
    (h : (m.map Prod.fst).Nodup) : clearThenUpdate m = m := by
  unfold clearThenUpdate
  have := foldl_dictSet_eq_append m [] (fun p _ => rfl) h
  simpa using this

theorem setIfAbsent_extends (m : EnvMap) (k v : String) :
    ∃ t, setIfAbsent m k v = m ++ t := by
  unfold setIfAbsent
  cases h : m.lookup k with
  | some w => exact ⟨[], by simp⟩
  | none => exact ⟨[(k, v)], rfl⟩

theorem copyAbsent_extends (src : EnvMap) :
    ∀ dst : EnvMap, ∃ t, copyAbsent src dst = dst ++ t := by
  induction src with
  | nil => intro dst; exact ⟨[], by simp [copyAbsent]⟩
  | cons kv rest ih =>
    intro dst
    obtain ⟨t1, h1⟩ := setIfAbsent_extends dst kv.1 kv.2
    obtain ⟨t2, h2⟩ := ih (setIfAbsent dst kv.1 kv.2)
    refine ⟨t1 ++ t2, ?_⟩
    show copyAbsent rest (setIfAbsent dst kv.1 kv.2) = dst ++ (t1 ++ t2)
    rw [h2, h1, List.append_assoc]

theorem dotenvStep_env_extends (dfs : DotenvFS) (file : String)
    (pr : EnvMap × EnvMap) :
    ∃ t, (dotenvStep dfs file pr).2 = pr.2 ++ t := by
  unfold dotenvStep
  by_cases h : dfs.fileExists file = true
  · rw [if_pos h]
    exact copyAbsent_extends (loadDotenv dfs file pr.1) pr.2
  · rw [if_neg h]
    exact ⟨[], by simp⟩

theorem profileStep_env_extends (dfs : DotenvFS) (original : EnvMap)
    (pr : EnvMap × EnvMap) :
    ∃ t, (profileStep dfs original pr).2 = pr.2 ++ t := by
  unfold profileStep
  dsimp only
  by_cases hc : (match pr.2.lookup "PROFILE" with
    | some p => p
    | none => envGet original "PROFILE" "NONE") ≠ "NONE"
  · rw [if_pos hc]
    exact dotenvStep_env_extends dfs _ pr
  · rw [if_neg hc]
    exact ⟨[], by simp⟩

theorem lev_env_extends (dfs : DotenvFS) (environ env : EnvMap) :
    ∃ extra,
      (load_environment_variables_explicit dfs environ env).2 =
        env ++ extra := by
  obtain ⟨t1, h1⟩ := dotenvStep_env_extends dfs ".env.shared" (environ, env)
  obtain ⟨t2, h2⟩ :=
    dotenvStep_env_extends dfs ".env" (dotenvStep dfs ".env.shared" (environ, env))
  obtain ⟨t3, h3⟩ := profileStep_env_extends dfs environ
    (dotenvStep dfs ".env" (dotenvStep dfs ".env.shared" (environ, env)))
  refine ⟨t1 ++ (t2 ++ t3), ?_⟩
  show (profileStep dfs environ
    (dotenvStep dfs ".env" (dotenvStep dfs ".env.shared" (environ, env)))).2 =
      env ++ (t1 ++ (t2 ++ t3))
  rw [h3, h2, h1, List.append_assoc, List.append_assoc]

/-- C10: `load_environment_variables` called with an explicit env dict
leaves the process-global environment identical (the saved copy is
restored at the end), only the passed-in dict gains entries (it is
extended, never rewritten), and a key already present in the passed-in
dict keeps its value. -/
theorem load_env_explicit_isolated (dfs : DotenvFS) (environ env : EnvMap)
    (hnd : (environ.map Prod.fst).Nodup) :
    (load_environment_variables_explicit dfs environ env).1 = environ ∧
    (∃ extra,
      (load_environment_variables_explicit dfs environ env).2 =
        env ++ extra) ∧
    (∀ k v, env.lookup k = some v →
      (load_environment_variables_explicit dfs environ env).2.lookup k =
        some v) := by
  refine ⟨?_, lev_env_extends dfs environ env, ?_⟩
  · show clearThenUpdate environ = environ
    exact clearThenUpdate_eq_self environ hnd
  · intro k v hv
    obtain ⟨extra, he⟩ := lev_env_extends dfs environ env
    rw [he]
    exact lookup_append_some extra hv

/-- Witness for C10: with a `.env` file that redefines A, the caller's
dict keeps its A, gains only new entries, and the process environment
is returned unchanged. -/
theorem load_env_explicit_isolated_witness :
    (load_environment_variables_explicit dfsSample [("PATH", "x")]
        [("A", "1")]).1 = [("PATH", "x")] ∧
    (∃ extra,
      (load_environment_variables_explicit dfsSample [("PATH", "x")]
          [("A", "1")]).2 = [("A", "1")] ++ extra) ∧
    (load_environment_variables_explicit dfsSample [("PATH", "x")]
        [("A", "1")]).2.lookup "A" = some "1" := by
  obtain ⟨h1, h2, h3⟩ := load_env_explicit_isolated dfsSample
    [("PATH", "x")] [("A", "1")] (by simp)
  exact ⟨h1, h2, h3 "A" "1" rfl⟩

end Pyslog
